import Mathlib

/-!
Verification development for the Archer voice-agent backend.

The definitions below are a shallow embedding of the Python sources:
* `src/archer/backend/src/tools/verification.py` (`VerifyAccountTool.execute`),
* `src/archer/backend/src/tools/payment.py` (`GetCustomerOptionsTool.execute`,
  `ProcessPaymentTool.execute`),
* `src/archer/backend/src/api/websockets.py` (`_cartesia_receive_loop`).

Modelling conventions:
* The Line-SDK context dictionary is the record `Ctx`; each field models the
  context key of the same name, `Option` marking a key that may be absent.
* Python float amounts are modelled as rationals; `round(x, 2)` is `round2`
  (round-half-even, Python's rounding mode) and the f-string format `.2f`
  is `fmt2`.
* The awaited repository calls are parameters: the directory lookup is a
  function into `Lookup` (its three possible outcomes), and the metadata
  write is a boolean `persistOk` saying whether `update_call_metadata`
  succeeds or raises.  `VerifyOutput.consulted` records whether the path
  taken reaches the `await customer_repo.verify_identity` call.
-/

namespace Archer

/-- Round a rational to the nearest integer, ties to even (Python `round`). -/
def roundHalfEven (q : ℚ) : ℤ :=
  let f := ⌊q⌋
  if q - f < 1/2 then f
  else if (1 : ℚ)/2 < q - f then f + 1
  else if f % 2 = 0 then f else f + 1

/-- Python `round(q, 2)`: round to two decimal places, ties to even. -/
def round2 (q : ℚ) : ℚ := (roundHalfEven (q * 100) : ℚ) / 100

/-- Python `f"{q:.2f}"` for the nonnegative amounts the tools format:
round to cents (ties to even) and print with exactly two decimals. -/
def fmt2 (q : ℚ) : String :=
  let c := (roundHalfEven (q * 100)).toNat
  let whole := c / 100
  let frac := c % 100
  toString whole ++ "." ++ (if frac < 10 then "0" ++ toString frac else toString frac)

/-- A customer record returned by `CustomerRepository.verify_identity`. -/
structure Customer where
  id : String
  name : String
  balance : ℚ
  days_overdue : ℤ
deriving DecidableEq

/-- Outcome of the awaited `customer_repo.verify_identity` call:
a matching customer, no match (`None`), or a raised exception. -/
inductive Lookup where
  | found (c : Customer) : Lookup
  | notFound : Lookup
  | error : Lookup
deriving DecidableEq

/-- One offer entry of the options dictionary (keys `amount`, `description`). -/
structure Offer where
  amount : ℚ
  description : String
deriving DecidableEq

/-- The `settlement` entry (extra key `discount_percentage`). -/
structure SettlementOffer where
  amount : ℚ
  description : String
  discount_percentage : Nat
deriving DecidableEq

/-- The `payment_plan` entry (extra key `months`). -/
structure PlanOffer where
  amount : ℚ
  description : String
  months : Nat
deriving DecidableEq

/-- The options dictionary built by `GetCustomerOptionsTool.execute`:
`full_payment` and `payment_plan` always present, `settlement` optional. -/
structure PaymentOptions where
  full_payment : Offer
  settlement : Option SettlementOffer
  payment_plan : PlanOffer
deriving DecidableEq

/-- `key in options` on the options dictionary. -/
def PaymentOptions.hasKey (o : PaymentOptions) (k : String) : Bool :=
  k == "full_payment" || k == "payment_plan" || (k == "settlement" && o.settlement.isSome)

/-- `float(options[key].get("amount", 0.0))`. -/
def PaymentOptions.amountOf (o : PaymentOptions) (k : String) : ℚ :=
  if k = "full_payment" then o.full_payment.amount
  else if k = "payment_plan" then o.payment_plan.amount
  else if k = "settlement" then
    match o.settlement with
    | some s => s.amount
    | none => 0
  else 0

/-- `options[key].get("months", 6)`. -/
def PaymentOptions.monthsOf (o : PaymentOptions) (k : String) : Nat :=
  if k = "payment_plan" then o.payment_plan.months else 6

/-- The `data` dictionary attached to a `ToolResult`, one constructor per
shape the tools actually build (empty default included). -/
inductive ToolData where
  | empty : ToolData
  | attemptsRemaining (n : Nat) : ToolData
  | customerInfo (customer_id : String) (balance : ℚ) (days_overdue : ℤ) : ToolData
  | options (opts : PaymentOptions) : ToolData
  | arrangement (payment_type : String) (option : String) (amount : ℚ) (recorded : Bool) : ToolData
deriving DecidableEq

/-- `ToolResult(success, message, should_end_call, data)`. -/
structure ToolResult where
  success : Bool
  message : String
  should_end_call : Bool
  data : ToolData
deriving DecidableEq

/-- The Line-SDK context dictionary, one field per key the tools touch;
`none` models an absent key. -/
structure Ctx where
  customer_phone : Option String := none
  verification_attempts : Nat := 0
  verified : Bool := false
  customer_id : Option String := none
  customer_name : Option String := none
  balance : Option ℚ := none
  days_overdue : Option ℤ := none
  payment_options : Option PaymentOptions := none
  call_outcome : Option String := none
  payment_amount : Option ℚ := none
  call_sid : Option String := none
deriving DecidableEq

/-- What one call to `VerifyAccountTool.execute` produces: the returned
`ToolResult`, the context after the call, and whether the directory
(`customer_repo.verify_identity`) was consulted on the path taken. -/
structure VerifyOutput where
  result : ToolResult
  ctx : Ctx
  consulted : Bool
deriving DecidableEq

/-- `self.max_attempts` set in `VerifyAccountTool.__init__`. -/
def max_attempts : Nat := 2

/-- Message returned when `customer_phone` is missing from the context. -/
def msgPhoneMissing : String := "Customer phone number not available in context"

/-- Message returned when the directory lookup raises. -/
def msgVerifyError : String :=
  "An error occurred while verifying your identity. For security, I need to end this call. Please try again later."

/-- Message returned when the attempt cap is reached. -/
def msgVerifyExhausted : String :=
  "I\'m sorry, I couldn\'t verify your identity. For security, I need to end this call. Please call back with your account information ready."

/-- Message returned on a mismatch with attempts left. -/
def msgMismatch (remaining : Nat) : String :=
  "The information provided doesn\'t match our records. You have " ++ toString remaining
    ++ " attempt" ++ (if remaining > 1 then "s" else "") ++ " remaining. Please try again."

/-- `VerifyAccountTool.execute(context, account_last_4, postal_code)`.
`repo phone last4 postal` stands for the awaited
`customer_repo.verify_identity(...)` call. -/
def VerifyAccountTool.execute (repo : String → String → String → Lookup)
    (ctx : Ctx) (account_last_4 postal_code : String) : VerifyOutput :=
  match ctx.customer_phone with
  | none => ⟨⟨false, msgPhoneMissing, true, .empty⟩, ctx, false⟩
  | some customer_phone =>
    if customer_phone = "" then
      ⟨⟨false, msgPhoneMissing, true, .empty⟩, ctx, false⟩
    else
      let failed_attempts := ctx.verification_attempts
      match repo customer_phone account_last_4 postal_code with
      | .error => ⟨⟨false, msgVerifyError, true, .empty⟩, ctx, true⟩
      | .found customer =>
        let ctx' := { ctx with
          verified := true
          customer_id := some customer.id
          customer_name := some customer.name
          balance := some customer.balance
          days_overdue := some customer.days_overdue }
        ⟨⟨true, "Identity verified. Welcome back, " ++ customer.name ++ ".", false,
          .customerInfo customer.id customer.balance customer.days_overdue⟩, ctx', true⟩
      | .notFound =>
        let failed_attempts := failed_attempts + 1
        let ctx' := { ctx with verification_attempts := failed_attempts }
        if max_attempts ≤ failed_attempts then
          ⟨⟨false, msgVerifyExhausted, true, .empty⟩, ctx', true⟩
        else
          let remaining := max_attempts - failed_attempts
          ⟨⟨false, msgMismatch remaining, false, .attemptsRemaining remaining⟩, ctx', true⟩

/-- A directory on which every submitted pair mismatches. -/
def repoAlwaysMismatch : String → String → String → Lookup := fun _ _ _ => .notFound

/-- A fresh session context with only the caller phone set. -/
def freshCtx : Ctx := { customer_phone := some "+15550001111" }

/-- Failure message of `GetCustomerOptionsTool` on an unverified session. -/
def msgNeedVerifyOptions : String :=
  "I need to verify your identity first before discussing payment options."

/-- Failure message of `GetCustomerOptionsTool` when `balance` is absent. -/
def msgBalanceUnavailable : String :=
  "I\'m having trouble accessing your account information. Please try again."

/-- Failure message of `ProcessPaymentTool` on an unverified session. -/
def msgNeedVerifyPayment : String := "I need to verify your identity first."

/-- Failure message of `ProcessPaymentTool` when options are missing or the
chosen key is not among them. -/
def msgNeedOptionsFirst : String := "Please let me get your payment options first."

/-- The options dictionary computed by `GetCustomerOptionsTool.execute`
from the balance and the days-overdue count (lines 82-104 of payment.py). -/
def computeOptions (balance_val : ℚ) (days_overdue : ℤ) : PaymentOptions :=
  let full_amount := round2 balance_val
  let settlement : Option SettlementOffer :=
    if days_overdue ≠ 0 ∧ 90 < days_overdue then
      let settlement_amount := round2 (balance_val * (7/10))
      some ⟨settlement_amount,
        "Settlement offer: Pay $" ++ fmt2 settlement_amount ++ " (30% discount)", 30⟩
    else none
  let payment_plan_monthly := if 0 < balance_val then round2 (balance_val / 6) else 0
  { full_payment := ⟨full_amount, "Pay the full balance"⟩
    settlement := settlement
    payment_plan := ⟨payment_plan_monthly,
      "Payment plan: $" ++ fmt2 payment_plan_monthly ++ " per month for 6 months", 6⟩ }

/-- The spoken summary built by `GetCustomerOptionsTool.execute`
(lines 110-122 of payment.py). -/
def optionsMessage (customer_name : String) (days_overdue : ℤ) (options : PaymentOptions) : String :=
  let base := customer_name ++ ", here are your payment options: "
    ++ "You can pay the full balance of $" ++ fmt2 options.full_payment.amount ++ ". "
  let withSettlement :=
    match options.settlement with
    | some s => base ++ "Since your account is " ++ toString days_overdue
        ++ " days overdue, we can offer a settlement of $" ++ fmt2 s.amount
        ++ ", saving you 30%. "
    | none => base
  withSettlement ++ "Or you can set up a payment plan of $" ++ fmt2 options.payment_plan.amount
    ++ " per month for 6 months. " ++ "Which option works best for you?"

/-- `GetCustomerOptionsTool.execute(context)`: the returned `ToolResult`
paired with the context after the call. -/
def GetCustomerOptionsTool.execute (ctx : Ctx) : ToolResult × Ctx :=
  if ctx.verified = false then
    (⟨false, msgNeedVerifyOptions, false, .empty⟩, ctx)
  else
    match ctx.balance with
    | none => (⟨false, msgBalanceUnavailable, false, .empty⟩, ctx)
    | some balance =>
      let balance_val := balance
      let days_overdue := ctx.days_overdue.getD 0
      let customer_name := ctx.customer_name.getD "there"
      let options := computeOptions balance_val days_overdue
      let ctx' := { ctx with payment_options := some options }
      (⟨true, optionsMessage customer_name days_overdue options, false, .options options⟩, ctx')

/-- Python truthiness of `context.get("call_sid")`: present and non-empty. -/
def Ctx.sidPresent (ctx : Ctx) : Bool :=
  match ctx.call_sid with
  | some s => s != ""
  | none => false

/-- The confirmation message built by `ProcessPaymentTool.execute`
(lines 207-224 of payment.py). -/
def confirmationMessage (payment_type : String) (amount : ℚ) (months : Nat) : String :=
  if payment_type = "sms_link" then
    "Perfect! I\'ll send you a text message with a secure payment link for $" ++ fmt2 amount
      ++ ". You\'ll receive it within the next few minutes. Is there anything else I can help you with?"
  else if payment_type = "bank_transfer" then
    "Great! I\'ll set up a bank transfer for $" ++ fmt2 amount
      ++ ". You\'ll receive the transfer details via email shortly. Is there anything else?"
  else if payment_type = "payment_plan" then
    "Excellent! I\'ve set up your payment plan of $" ++ fmt2 amount ++ " per month for "
      ++ toString months
      ++ " months. You\'ll receive a confirmation email with all the details. Is there anything else I can help you with today?"
  else
    "I\'ve recorded your payment arrangement for $" ++ fmt2 amount
      ++ ". You\'ll receive confirmation shortly."

/-- `ProcessPaymentTool.execute(context, payment_type, option)`.
`persistOk` stands for the awaited `call_repo.update_call_metadata` call:
`true` when it returns, `false` when it raises (the write is attempted only
when `call_sid` is truthy). -/
def ProcessPaymentTool.execute (persistOk : Bool) (ctx : Ctx)
    (payment_type : String) (option : String) : ToolResult × Ctx :=
  if ctx.verified = false then
    (⟨false, msgNeedVerifyPayment, false, .empty⟩, ctx)
  else
    match ctx.payment_options with
    | none => (⟨false, msgNeedOptionsFirst, false, .empty⟩, ctx)
    | some options =>
      if options.hasKey option = false then
        (⟨false, msgNeedOptionsFirst, false, .empty⟩, ctx)
      else
        let amount := options.amountOf option
        let recorded := ctx.sidPresent && persistOk
        let message := confirmationMessage payment_type amount (options.monthsOf option)
        let ctx' := { ctx with
          call_outcome := some "payment_arranged"
          payment_amount := some amount }
        (⟨true, message, false, .arrangement payment_type option amount recorded⟩, ctx')

/-- The mutable `stream_state` dictionary shared by the two relay loops. -/
structure StreamState where
  stream_sid : Option String := none
  call_sid : Option String := none
  conversation_id : Option String := none
deriving DecidableEq

/-- Python truthiness of `stream_state.get("stream_sid")`. -/
def StreamState.hasSid (st : StreamState) : Bool :=
  match st.stream_sid with
  | some sid => sid != ""
  | none => false

/-- One message received from the Cartesia voice-engine websocket, after the
JSON probing of `_cartesia_receive_loop`: raw bytes, a typed `audio` message
(carrying the truthiness-or of `audio_base64` and `audio`), `pong`,
`conversation_ack`, an unrecognized JSON message, or a JSON decode failure. -/
inductive CartesiaMessage where
  | binary (payload : List Nat) : CartesiaMessage
  | audio (audio_b64 : Option String) : CartesiaMessage
  | pong : CartesiaMessage
  | conversation_ack (conversation_id : Option String) : CartesiaMessage
  | other : CartesiaMessage
  | nonJson : CartesiaMessage
deriving DecidableEq

/-- Whether a message is a voice-engine audio frame (binary or typed audio). -/
def CartesiaMessage.isAudioFrame : CartesiaMessage → Bool
  | .binary _ => true
  | .audio _ => true
  | _ => false

/-- A `media` frame written to the Twilio websocket:
`{"event": "media", "streamSid": sid, "media": {"payload": p}}`. -/
structure MediaFrame where
  streamSid : String
  payload : String
deriving DecidableEq

/-- The body of `_cartesia_receive_loop` for one received message: the media
frames written to the Twilio websocket and the stream state afterwards.
`enc` stands for `base64.b64encode(...).decode("utf-8")`. -/
def cartesiaStep (enc : List Nat → String) (st : StreamState) (m : CartesiaMessage) :
    List MediaFrame × StreamState :=
  match m with
  | .binary payload =>
    let audio_b64 := enc payload
    match st.stream_sid with
    | some sid => if sid ≠ "" then ([⟨sid, audio_b64⟩], st) else ([], st)
    | none => ([], st)
  | .audio audio_b64 =>
    match audio_b64 with
    | some a =>
      if a ≠ "" then
        match st.stream_sid with
        | some sid => if sid ≠ "" then ([⟨sid, a⟩], st) else ([], st)
        | none => ([], st)
      else ([], st)
    | none => ([], st)
  | .conversation_ack conv_id => ([], { st with conversation_id := conv_id })
  | .pong => ([], st)
  | .other => ([], st)
  | .nonJson => ([], st)

/-- `_cartesia_receive_loop` over a whole sequence of received messages:
all media frames written, in order, and the final stream state. -/
def cartesiaLoop (enc : List Nat → String) (st : StreamState) :
    List CartesiaMessage → List MediaFrame × StreamState
  | [] => ([], st)
  | m :: ms =>
    let step := cartesiaStep enc st m
    let rest := cartesiaLoop enc step.2 ms
    (step.1 ++ rest.1, rest.2)

/-- Bool test that `k` is absent from the session's stored options
(no options stored at all, or the key not among them). -/
def Ctx.lacksOption (ctx : Ctx) (k : String) : Bool :=
  match ctx.payment_options with
  | none => true
  | some o => !o.hasKey k

/-- A directory that always raises. -/
def repoAlwaysError : String → String → String → Lookup := fun _ _ _ => .error

/-- A verified session whose options were computed for balance 200,
30 days overdue, with a call sid present. -/
def ctxArranged : Ctx :=
  { customer_phone := some "+15550001111"
    verified := true
    customer_name := some "Dana"
    balance := some 200
    days_overdue := some 30
    payment_options := some (computeOptions 200 30)
    call_sid := some "CA123" }

/-- A verified session with balance 600, 120 days overdue. -/
def ctxOverdue : Ctx :=
  { customer_phone := some "+15550001111"
    verified := true
    customer_name := some "Dana"
    balance := some 600
    days_overdue := some 120 }

/-- A verified session whose balance key is absent. -/
def ctxVerifiedNoBalance : Ctx :=
  { customer_phone := some "+15550001111"
    verified := true
    customer_name := some "Dana" }

/-- A placeholder base64 encoder for witnesses. -/
def encDummy : List Nat → String := fun _ => "QUJD"

/-- A stream state with no captured stream identifier. -/
def stNoSid : StreamState := {}

/-- A stream state whose stream identifier is captured. -/
def stWithSid : StreamState := { stream_sid := some "MZ123" }

/- ------------------------------------------------------------------ -/
/- Claim theorems -/
/- ------------------------------------------------------------------ -/

/-- C1, counterexample to the claim as stated: on a fresh session where every
pair mismatches, a third call to `VerifyAccountTool.execute` after the counter
has reached 2 still consults the directory (`consulted = true`) and pushes the
counter to 3 — the directory IS consulted and the counter DOES exceed 2. -/
theorem C1_counterexample :
    ((VerifyAccountTool.execute repoAlwaysMismatch
        (VerifyAccountTool.execute repoAlwaysMismatch freshCtx "1234" "90210").ctx
        "1234" "90210").ctx.verification_attempts = 2) ∧
    ((VerifyAccountTool.execute repoAlwaysMismatch
        (VerifyAccountTool.execute repoAlwaysMismatch
          (VerifyAccountTool.execute repoAlwaysMismatch freshCtx "1234" "90210").ctx
          "1234" "90210").ctx
        "1234" "90210").consulted = true) ∧
    ((VerifyAccountTool.execute repoAlwaysMismatch
        (VerifyAccountTool.execute repoAlwaysMismatch
          (VerifyAccountTool.execute repoAlwaysMismatch freshCtx "1234" "90210").ctx
          "1234" "90210").ctx
        "1234" "90210").ctx.verification_attempts = 3) := by
  decide

/-- C1 (amended): on a fresh session on which every submitted pair mismatches,
the first call returns failure with `should_end_call = false` and
`attempts_remaining = 1`, the second returns failure with
`should_end_call = true` and the counter at the maximum (2); a third attempt
is still evaluated — the directory is consulted again, the counter is pushed
to 3, and the result is again failure with `should_end_call = true`. -/
theorem C1_attempt_cap (repo : String → String → String → Lookup) (ctx : Ctx)
    (p a1 c1 a2 c2 a3 c3 : String)
    (hphone : ctx.customer_phone = some p) (hp : p ≠ "")
    (h0 : ctx.verification_attempts = 0)
    (hrepo : ∀ a c, repo p a c = .notFound) :
    (VerifyAccountTool.execute repo ctx a1 c1).result.success = false ∧
    (VerifyAccountTool.execute repo ctx a1 c1).result.should_end_call = false ∧
    (VerifyAccountTool.execute repo ctx a1 c1).result.data = .attemptsRemaining 1 ∧
    (VerifyAccountTool.execute repo ctx a1 c1).ctx.verification_attempts = 1 ∧
    (VerifyAccountTool.execute repo
      (VerifyAccountTool.execute repo ctx a1 c1).ctx a2 c2).result.success = false ∧
    (VerifyAccountTool.execute repo
      (VerifyAccountTool.execute repo ctx a1 c1).ctx a2 c2).result.should_end_call = true ∧
    (VerifyAccountTool.execute repo
      (VerifyAccountTool.execute repo ctx a1 c1).ctx a2 c2).ctx.verification_attempts = 2 ∧
    (VerifyAccountTool.execute repo
      (VerifyAccountTool.execute repo
        (VerifyAccountTool.execute repo ctx a1 c1).ctx a2 c2).ctx a3 c3).consulted = true ∧
    (VerifyAccountTool.execute repo
      (VerifyAccountTool.execute repo
        (VerifyAccountTool.execute repo ctx a1 c1).ctx a2 c2).ctx a3 c3).result.should_end_call
      = true ∧
    (VerifyAccountTool.execute repo
      (VerifyAccountTool.execute repo
        (VerifyAccountTool.execute repo ctx a1 c1).ctx a2 c2).ctx a3 c3).ctx.verification_attempts
      = 3 := by
  have step1 : VerifyAccountTool.execute repo ctx a1 c1 =
      ⟨⟨false, msgMismatch 1, false, .attemptsRemaining 1⟩,
        { ctx with verification_attempts := 1 }, true⟩ := by
    simp [VerifyAccountTool.execute, hphone, hp, hrepo, h0, max_attempts]
  have step2 : VerifyAccountTool.execute repo { ctx with verification_attempts := 1 } a2 c2 =
      ⟨⟨false, msgVerifyExhausted, true, .empty⟩,
        { ctx with verification_attempts := 2 }, true⟩ := by
    simp [VerifyAccountTool.execute, hphone, hp, hrepo, max_attempts]
  have step3 : VerifyAccountTool.execute repo { ctx with verification_attempts := 2 } a3 c3 =
      ⟨⟨false, msgVerifyExhausted, true, .empty⟩,
        { ctx with verification_attempts := 3 }, true⟩ := by
    simp [VerifyAccountTool.execute, hphone, hp, hrepo, max_attempts]
  rw [step1]
  rw [step2]
  rw [step3]
  simp

/-- C1 witness: the amended statement instantiated on a concrete fresh
session and an always-mismatching directory. -/
theorem C1_witness :
    (VerifyAccountTool.execute repoAlwaysMismatch freshCtx "1234" "90210").result.success = false ∧
    (VerifyAccountTool.execute repoAlwaysMismatch freshCtx "1234" "90210").result.should_end_call
      = false ∧
    (VerifyAccountTool.execute repoAlwaysMismatch freshCtx "1234" "90210").result.data
      = .attemptsRemaining 1 ∧
    (VerifyAccountTool.execute repoAlwaysMismatch freshCtx "1234" "90210").ctx.verification_attempts
      = 1 ∧
    (VerifyAccountTool.execute repoAlwaysMismatch
      (VerifyAccountTool.execute repoAlwaysMismatch freshCtx "1234" "90210").ctx
      "5678" "10001").result.success = false ∧
    (VerifyAccountTool.execute repoAlwaysMismatch
      (VerifyAccountTool.execute repoAlwaysMismatch freshCtx "1234" "90210").ctx
      "5678" "10001").result.should_end_call = true ∧
    (VerifyAccountTool.execute repoAlwaysMismatch
      (VerifyAccountTool.execute repoAlwaysMismatch freshCtx "1234" "90210").ctx
      "5678" "10001").ctx.verification_attempts = 2 ∧
    (VerifyAccountTool.execute repoAlwaysMismatch
      (VerifyAccountTool.execute repoAlwaysMismatch
        (VerifyAccountTool.execute repoAlwaysMismatch freshCtx "1234" "90210").ctx
        "5678" "10001").ctx "1234" "90210").consulted = true ∧
    (VerifyAccountTool.execute repoAlwaysMismatch
      (VerifyAccountTool.execute repoAlwaysMismatch
        (VerifyAccountTool.execute repoAlwaysMismatch freshCtx "1234" "90210").ctx
        "5678" "10001").ctx "1234" "90210").result.should_end_call = true ∧
    (VerifyAccountTool.execute repoAlwaysMismatch
      (VerifyAccountTool.execute repoAlwaysMismatch
        (VerifyAccountTool.execute repoAlwaysMismatch freshCtx "1234" "90210").ctx
        "5678" "10001").ctx "1234" "90210").ctx.verification_attempts = 3 :=
  C1_attempt_cap repoAlwaysMismatch freshCtx "+15550001111" "1234" "90210" "5678" "10001"
    "1234" "90210" rfl (by decide) rfl (fun _ _ => rfl)

/-- C2: when `customer_phone` is missing or empty, `VerifyAccountTool.execute`
returns failure with `should_end_call = true`, does not consult the directory,
and leaves the context (in particular `verification_attempts`) unchanged. -/
theorem C2_missing_phone_hard_failure (repo : String → String → String → Lookup)
    (ctx : Ctx) (account_last_4 postal_code : String)
    (h : ctx.customer_phone = none ∨ ctx.customer_phone = some "") :
    (VerifyAccountTool.execute repo ctx account_last_4 postal_code).result.success = false ∧
    (VerifyAccountTool.execute repo ctx account_last_4 postal_code).result.should_end_call = true ∧
    (VerifyAccountTool.execute repo ctx account_last_4 postal_code).consulted = false ∧
    (VerifyAccountTool.execute repo ctx account_last_4 postal_code).ctx = ctx := by
  rcases h with h | h <;> simp [VerifyAccountTool.execute, h]

/-- C2 witness: the empty context (no `customer_phone`) with any directory. -/
theorem C2_witness :
    (VerifyAccountTool.execute repoAlwaysMismatch {} "1234" "90210").result.success = false ∧
    (VerifyAccountTool.execute repoAlwaysMismatch {} "1234" "90210").result.should_end_call
      = true ∧
    (VerifyAccountTool.execute repoAlwaysMismatch {} "1234" "90210").consulted = false ∧
    (VerifyAccountTool.execute repoAlwaysMismatch {} "1234" "90210").ctx = {} :=
  C2_missing_phone_hard_failure repoAlwaysMismatch {} "1234" "90210" (Or.inl rfl)

/-- C3: when the directory lookup raises, `VerifyAccountTool.execute` returns
failure with `should_end_call = true` and leaves the context unchanged (so the
`verified` flag and the account-snapshot fields are untouched). -/
theorem C3_directory_error_fails_closed (repo : String → String → String → Lookup)
    (ctx : Ctx) (p account_last_4 postal_code : String)
    (hphone : ctx.customer_phone = some p) (hp : p ≠ "")
    (herr : repo p account_last_4 postal_code = .error) :
    (VerifyAccountTool.execute repo ctx account_last_4 postal_code).result.success = false ∧
    (VerifyAccountTool.execute repo ctx account_last_4 postal_code).result.should_end_call = true ∧
    (VerifyAccountTool.execute repo ctx account_last_4 postal_code).ctx = ctx := by
  simp [VerifyAccountTool.execute, hphone, hp, herr]

/-- C3 witness: a fresh session against an always-raising directory. -/
theorem C3_witness :
    (VerifyAccountTool.execute repoAlwaysError freshCtx "1234" "90210").result.success = false ∧
    (VerifyAccountTool.execute repoAlwaysError freshCtx "1234" "90210").result.should_end_call
      = true ∧
    (VerifyAccountTool.execute repoAlwaysError freshCtx "1234" "90210").ctx = freshCtx :=
  C3_directory_error_fails_closed repoAlwaysError freshCtx "+15550001111" "1234" "90210"
    rfl (by decide) rfl

/-- Helper: the settlement entry of `computeOptions`, as a single `if` on the
90-day threshold (the source's `days_overdue and days_overdue > 90` guard is
equivalent to `90 < d` for integer `d`). -/
theorem computeOptions_settlement_eq (b : ℚ) (d : ℤ) :
    (computeOptions b d).settlement =
      (if 90 < d then
        some ⟨round2 (b * (7/10)),
          "Settlement offer: Pay $" ++ fmt2 (round2 (b * (7/10))) ++ " (30% discount)", 30⟩
       else none) := by
  unfold computeOptions
  by_cases h : 90 < d
  · have hd0 : d ≠ 0 := by omega
    simp [h, hd0]
  · simp [h]

/-- C4: on a verified session with balance `b` and `days_overdue` `d`, the
options stored (and returned) are `computeOptions b d`, a pure function of
`(b, d)` — so the computation is deterministic — and `computeOptions b d`
always contains `full_payment` with amount `round2 b`, contains `settlement`
iff `d > 90` (then with amount `round2 (b * 7/10)` and a 30% discount field),
and contains `payment_plan` with amount `round2 (b / 6)` when `b > 0` and
amount 0 otherwise. -/
theorem C4_options_computation (ctx : Ctx) (b : ℚ) (d : ℤ)
    (hv : ctx.verified = true) (hb : ctx.balance = some b) (hd : ctx.days_overdue = some d) :
    (GetCustomerOptionsTool.execute ctx).2.payment_options = some (computeOptions b d) ∧
    (GetCustomerOptionsTool.execute ctx).1.data = .options (computeOptions b d) ∧
    (computeOptions b d).full_payment.amount = round2 b ∧
    ((computeOptions b d).settlement.isSome ↔ 90 < d) ∧
    (∀ s, (computeOptions b d).settlement = some s →
        s.amount = round2 (b * (7/10)) ∧ s.discount_percentage = 30) ∧
    (computeOptions b d).payment_plan.amount = (if 0 < b then round2 (b / 6) else 0) := by
  refine ⟨?_, ?_, rfl, ?_, ?_, rfl⟩
  · simp [GetCustomerOptionsTool.execute, hv, hb, hd]
  · simp [GetCustomerOptionsTool.execute, hv, hb, hd]
  · rw [computeOptions_settlement_eq]
    by_cases h : 90 < d <;> simp [h]
  · intro s hs
    rw [computeOptions_settlement_eq] at hs
    by_cases h : 90 < d
    · rw [if_pos h] at hs
      injection hs with hs
      subst hs
      exact ⟨rfl, rfl⟩
    · rw [if_neg h] at hs
      exact Option.noConfusion hs

/-- C4 witness: a verified session with balance 600 and 120 days overdue. -/
theorem C4_witness :
    (GetCustomerOptionsTool.execute ctxOverdue).2.payment_options
      = some (computeOptions 600 120) ∧
    (GetCustomerOptionsTool.execute ctxOverdue).1.data = .options (computeOptions 600 120) ∧
    (computeOptions 600 120).full_payment.amount = round2 600 ∧
    ((computeOptions 600 120).settlement.isSome ↔ 90 < (120 : ℤ)) ∧
    (∀ s, (computeOptions 600 120).settlement = some s →
        s.amount = round2 (600 * (7/10)) ∧ s.discount_percentage = 30) ∧
    (computeOptions 600 120).payment_plan.amount
      = (if 0 < (600 : ℚ) then round2 (600 / 6) else 0) :=
  C4_options_computation ctxOverdue 600 120 rfl rfl rfl

/-- C5: on an unverified session, `GetCustomerOptionsTool.execute` returns
failure and leaves the context unchanged — in particular `payment_options`
stays as it was. -/
theorem C5_unverified_options_failure (ctx : Ctx) (hv : ctx.verified = false) :
    (GetCustomerOptionsTool.execute ctx).1.success = false ∧
    (GetCustomerOptionsTool.execute ctx).2 = ctx ∧
    (GetCustomerOptionsTool.execute ctx).2.payment_options = ctx.payment_options := by
  have hres : GetCustomerOptionsTool.execute ctx =
      (⟨false, msgNeedVerifyOptions, false, .empty⟩, ctx) := by
    simp [GetCustomerOptionsTool.execute, hv]
  rw [hres]
  exact ⟨rfl, rfl, rfl⟩

/-- C5 witness: the empty (unverified) context. -/
theorem C5_witness :
    (GetCustomerOptionsTool.execute {}).1.success = false ∧
    (GetCustomerOptionsTool.execute {}).2 = {} ∧
    (GetCustomerOptionsTool.execute {}).2.payment_options = Ctx.payment_options {} :=
  C5_unverified_options_failure {} rfl

/-- C10: on a verified session whose `balance` is absent,
`GetCustomerOptionsTool.execute` returns failure and leaves the context
unchanged — no `payment_options` are stored. -/
theorem C10_no_balance_failure (ctx : Ctx)
    (hv : ctx.verified = true) (hb : ctx.balance = none) :
    (GetCustomerOptionsTool.execute ctx).1.success = false ∧
    (GetCustomerOptionsTool.execute ctx).2 = ctx ∧
    (GetCustomerOptionsTool.execute ctx).2.payment_options = ctx.payment_options := by
  have hres : GetCustomerOptionsTool.execute ctx =
      (⟨false, msgBalanceUnavailable, false, .empty⟩, ctx) := by
    simp [GetCustomerOptionsTool.execute, hv, hb]
  rw [hres]
  exact ⟨rfl, rfl, rfl⟩

/-- C10 witness: a verified context with no balance. -/
theorem C10_witness :
    (GetCustomerOptionsTool.execute ctxVerifiedNoBalance).1.success = false ∧
    (GetCustomerOptionsTool.execute ctxVerifiedNoBalance).2 = ctxVerifiedNoBalance ∧
    (GetCustomerOptionsTool.execute ctxVerifiedNoBalance).2.payment_options
      = ctxVerifiedNoBalance.payment_options :=
  C10_no_balance_failure ctxVerifiedNoBalance rfl rfl

/-- C6: when the chosen key is absent from the stored options (or no options
are stored), `ProcessPaymentTool.execute` returns failure and leaves the
context — in particular `call_outcome` — unchanged; on a verified session the
failure message is the options-first message, which is distinct from the
not-verified message. -/
theorem C6_invalid_choice_no_mutation (persistOk : Bool) (ctx : Ctx)
    (payment_type k : String) (h : ctx.lacksOption k = true) :
    (ProcessPaymentTool.execute persistOk ctx payment_type k).1.success = false ∧
    (ProcessPaymentTool.execute persistOk ctx payment_type k).2 = ctx ∧
    (ProcessPaymentTool.execute persistOk ctx payment_type k).2.call_outcome
      = ctx.call_outcome ∧
    (ctx.verified = true →
      (ProcessPaymentTool.execute persistOk ctx payment_type k).1.message
        = msgNeedOptionsFirst) ∧
    (ctx.verified = false →
      (ProcessPaymentTool.execute persistOk ctx payment_type k).1.message
        = msgNeedVerifyPayment) ∧
    msgNeedOptionsFirst ≠ msgNeedVerifyPayment := by
  have hmsg : msgNeedOptionsFirst ≠ msgNeedVerifyPayment := by decide
  cases hv : ctx.verified with
  | false =>
    have hres : ProcessPaymentTool.execute persistOk ctx payment_type k =
        (⟨false, msgNeedVerifyPayment, false, .empty⟩, ctx) := by
      simp [ProcessPaymentTool.execute, hv]
    rw [hres]
    refine ⟨rfl, rfl, rfl, ?_, fun _ => rfl, hmsg⟩
    intro hcontr
    exact absurd hcontr (by decide)
  | true =>
    have hres : ProcessPaymentTool.execute persistOk ctx payment_type k =
        (⟨false, msgNeedOptionsFirst, false, .empty⟩, ctx) := by
      cases hopt : ctx.payment_options with
      | none => simp [ProcessPaymentTool.execute, hv, hopt]
      | some o =>
        have hk : o.hasKey k = false := by
          have h' := h
          simp [Ctx.lacksOption, hopt] at h'
          exact h'
        simp [ProcessPaymentTool.execute, hv, hopt, hk]
    rw [hres]
    refine ⟨rfl, rfl, rfl, fun _ => rfl, ?_, hmsg⟩
    intro hcontr
    exact absurd hcontr (by decide)

/-- C6 witness: a verified session whose stored options have no `settlement`
entry, asked to process the `settlement` option. -/
theorem C6_witness :
    (ProcessPaymentTool.execute true ctxArranged "sms_link" "settlement").1.success = false ∧
    (ProcessPaymentTool.execute true ctxArranged "sms_link" "settlement").2 = ctxArranged ∧
    (ProcessPaymentTool.execute true ctxArranged "sms_link" "settlement").2.call_outcome
      = ctxArranged.call_outcome ∧
    (ctxArranged.verified = true →
      (ProcessPaymentTool.execute true ctxArranged "sms_link" "settlement").1.message
        = msgNeedOptionsFirst) ∧
    (ctxArranged.verified = false →
      (ProcessPaymentTool.execute true ctxArranged "sms_link" "settlement").1.message
        = msgNeedVerifyPayment) ∧
    msgNeedOptionsFirst ≠ msgNeedVerifyPayment :=
  C6_invalid_choice_no_mutation true ctxArranged "sms_link" "settlement" (by decide)

/-- Helper: the round-half-even rounding is the identity on integers. -/
theorem roundHalfEven_intCast (n : ℤ) : roundHalfEven (n : ℚ) = n := by
  unfold roundHalfEven
  norm_num

/-- Helper: `fmt2` renders 200 as the string 200.00. -/
theorem fmt2_200 : fmt2 (200 : ℚ) = "200.00" := by
  unfold fmt2
  rw [show (200 : ℚ) * 100 = ((20000 : ℤ) : ℚ) by norm_num, roundHalfEven_intCast]
  rfl

/-- Helper: `round2` fixes 200. -/
theorem round2_200 : round2 (200 : ℚ) = 200 := by
  unfold round2
  rw [show (200 : ℚ) * 100 = ((20000 : ℤ) : ℚ) by norm_num, roundHalfEven_intCast]
  norm_num

/-- C7: on a verified session whose stored options give `full_payment` amount
200, `execute("sms_link", "full_payment")` returns success with a message
containing `$200.00` and sets `call_outcome = "payment_arranged"` and
`payment_amount = 200`; whenever the metadata write raises
(`persistOk = false`), the result is still success with `recorded = false`. -/
theorem C7_sms_confirmation_and_persistence (persistOk : Bool) (ctx : Ctx)
    (opts : PaymentOptions)
    (hv : ctx.verified = true) (hopts : ctx.payment_options = some opts)
    (hamt : opts.full_payment.amount = 200) :
    (ProcessPaymentTool.execute persistOk ctx "sms_link" "full_payment").1.success = true ∧
    (∃ pre post,
      (ProcessPaymentTool.execute persistOk ctx "sms_link" "full_payment").1.message
        = pre ++ "$200.00" ++ post) ∧
    (ProcessPaymentTool.execute persistOk ctx "sms_link" "full_payment").2.call_outcome
      = some "payment_arranged" ∧
    (ProcessPaymentTool.execute persistOk ctx "sms_link" "full_payment").2.payment_amount
      = some 200 ∧
    (persistOk = false →
      (ProcessPaymentTool.execute persistOk ctx "sms_link" "full_payment").1.data
        = .arrangement "sms_link" "full_payment" 200 false) := by
  have hkey : opts.hasKey "full_payment" = true := by
    simp [PaymentOptions.hasKey]
  have hamount : opts.amountOf "full_payment" = 200 := by
    unfold PaymentOptions.amountOf
    rw [if_pos rfl]
    exact hamt
  have hres : ProcessPaymentTool.execute persistOk ctx "sms_link" "full_payment" =
      (⟨true, confirmationMessage "sms_link" 200 (opts.monthsOf "full_payment"), false,
        .arrangement "sms_link" "full_payment" 200 (ctx.sidPresent && persistOk)⟩,
       { ctx with call_outcome := some "payment_arranged", payment_amount := some 200 }) := by
    simp [ProcessPaymentTool.execute, hv, hopts, hkey, hamount]
  refine ⟨?_, ?_, ?_, ?_, ?_⟩
  · rw [hres]
  · refine ⟨"Perfect! I\'ll send you a text message with a secure payment link for ",
      ". You\'ll receive it within the next few minutes. Is there anything else I can help you with?",
      ?_⟩
    rw [hres]
    show confirmationMessage "sms_link" 200 (opts.monthsOf "full_payment") = _
    unfold confirmationMessage
    rw [if_pos rfl, fmt2_200]
    rfl
  · rw [hres]
  · rw [hres]
  · intro hpersist
    subst hpersist
    rw [hres]
    simp

/-- C7 witness: `ctxArranged` (options computed for balance 200, full-payment
amount 200) with a raising metadata write. -/
theorem C7_witness :
    (ProcessPaymentTool.execute false ctxArranged "sms_link" "full_payment").1.success = true ∧
    (∃ pre post,
      (ProcessPaymentTool.execute false ctxArranged "sms_link" "full_payment").1.message
        = pre ++ "$200.00" ++ post) ∧
    (ProcessPaymentTool.execute false ctxArranged "sms_link" "full_payment").2.call_outcome
      = some "payment_arranged" ∧
    (ProcessPaymentTool.execute false ctxArranged "sms_link" "full_payment").2.payment_amount
      = some 200 ∧
    (false = false →
      (ProcessPaymentTool.execute false ctxArranged "sms_link" "full_payment").1.data
        = .arrangement "sms_link" "full_payment" 200 false) :=
  C7_sms_confirmation_and_persistence false ctxArranged (computeOptions 200 30)
    rfl rfl (by exact round2_200)

/-- Helper: a frame emitted by one step of the outbound loop carries the
stream identifier captured in the state at that step. -/
theorem cartesiaStep_mem_sid (enc : List Nat → String) (st : StreamState)
    (m : CartesiaMessage) (f : MediaFrame) (hf : f ∈ (cartesiaStep enc st m).1) :
    st.stream_sid = some f.streamSid := by
  cases m with
  | binary p =>
    rcases hs : st.stream_sid with _ | sid
    · simp [cartesiaStep, hs] at hf
    · by_cases h : sid = ""
      · simp [cartesiaStep, hs, h] at hf
      · simp [cartesiaStep, hs, h] at hf
        subst hf
        rfl
  | audio a =>
    rcases a with _ | a
    · simp [cartesiaStep] at hf
    · by_cases ha : a = ""
      · simp [cartesiaStep, ha] at hf
      · rcases hs : st.stream_sid with _ | sid
        · simp [cartesiaStep, hs, ha] at hf
        · by_cases h : sid = ""
          · simp [cartesiaStep, hs, h, ha] at hf
          · simp [cartesiaStep, hs, h, ha] at hf
            subst hf
            rfl
  | pong => simp [cartesiaStep] at hf
  | conversation_ack c => simp [cartesiaStep] at hf
  | other => simp [cartesiaStep] at hf
  | nonJson => simp [cartesiaStep] at hf

/-- Helper: with no captured stream identifier, an audio frame (binary or
typed) produces no output and leaves the state untouched. -/
theorem cartesiaStep_drop_audio (enc : List Nat → String) (st : StreamState)
    (m : CartesiaMessage) (hno : st.hasSid = false) (hm : m.isAudioFrame = true) :
    cartesiaStep enc st m = ([], st) := by
  cases m with
  | binary p =>
    rcases hs : st.stream_sid with _ | sid
    · simp [cartesiaStep, hs]
    · simp [StreamState.hasSid, hs] at hno
      simp [cartesiaStep, hs, hno]
  | audio a =>
    rcases a with _ | a
    · simp [cartesiaStep]
    · by_cases ha : a = ""
      · simp [cartesiaStep, ha]
      · rcases hs : st.stream_sid with _ | sid
        · simp [cartesiaStep, hs, ha]
        · simp [StreamState.hasSid, hs] at hno
          simp [cartesiaStep, hs, hno, ha]
  | pong => exact Bool.noConfusion hm
  | conversation_ack c => exact Bool.noConfusion hm
  | other => exact Bool.noConfusion hm
  | nonJson => exact Bool.noConfusion hm

/-- Helper: no step of the outbound loop ever changes the stream identifier
(it is only written by the telephony-receive loop). -/
theorem cartesiaStep_sid_preserved (enc : List Nat → String) (st : StreamState)
    (m : CartesiaMessage) : (cartesiaStep enc st m).2.stream_sid = st.stream_sid := by
  cases m with
  | binary p =>
    rcases hs : st.stream_sid with _ | sid
    · simp [cartesiaStep, hs]
    · by_cases h : sid = "" <;> simp [cartesiaStep, hs, h]
  | audio a =>
    rcases a with _ | a
    · simp [cartesiaStep]
    · by_cases ha : a = ""
      · simp [cartesiaStep, ha]
      · rcases hs : st.stream_sid with _ | sid
        · simp [cartesiaStep, hs, ha]
        · by_cases h : sid = "" <;> simp [cartesiaStep, hs, h, ha]
  | pong => rfl
  | conversation_ack c => rfl
  | other => rfl
  | nonJson => rfl

/-- Helper: with no captured stream identifier, a step emits nothing at all
(non-audio frames emit nothing anyway). -/
theorem cartesiaStep_out_empty (enc : List Nat → String) (st : StreamState)
    (m : CartesiaMessage) (hno : st.hasSid = false) : (cartesiaStep enc st m).1 = [] := by
  cases m with
  | binary p => rw [cartesiaStep_drop_audio enc st (.binary p) hno rfl]
  | audio a => rw [cartesiaStep_drop_audio enc st (.audio a) hno rfl]
  | pong => rfl
  | conversation_ack c => rfl
  | other => rfl
  | nonJson => rfl

/-- Helper: `hasSid` is invariant under the outbound loop's steps. -/
theorem cartesiaStep_hasSid (enc : List Nat → String) (st : StreamState)
    (m : CartesiaMessage) : (cartesiaStep enc st m).2.hasSid = st.hasSid := by
  unfold StreamState.hasSid
  rw [cartesiaStep_sid_preserved]

/-- Helper: a run of the outbound loop that starts with no captured stream
identifier forwards no media frame at all. -/
theorem cartesiaLoop_out_empty (enc : List Nat → String) (ms : List CartesiaMessage) :
    ∀ st : StreamState, st.hasSid = false → (cartesiaLoop enc st ms).1 = [] := by
  induction ms with
  | nil => intro st _; rfl
  | cons m ms ih =>
    intro st hno
    have h1 := cartesiaStep_out_empty enc st m hno
    have h2 : (cartesiaStep enc st m).2.hasSid = false := by
      rw [cartesiaStep_hasSid]; exact hno
    simp [cartesiaLoop, h1, ih _ h2]

/-- C8: in the outbound relay loop, every media frame written to the telephony
connection carries the stream identifier captured at the time it is written;
an audio frame (binary or typed audio) processed while no identifier is
captured yields no output and leaves the state unchanged (dropped, not
buffered); and a whole run of the loop from a state with no identifier —
which the loop itself never sets — forwards nothing at all. -/
theorem C8_outbound_tagging_and_drop :
    (∀ (enc : List Nat → String) (st : StreamState) (m : CartesiaMessage) (f : MediaFrame),
        f ∈ (cartesiaStep enc st m).1 → st.stream_sid = some f.streamSid) ∧
    (∀ (enc : List Nat → String) (st : StreamState) (m : CartesiaMessage),
        st.hasSid = false → m.isAudioFrame = true → cartesiaStep enc st m = ([], st)) ∧
    (∀ (enc : List Nat → String) (st : StreamState) (ms : List CartesiaMessage),
        st.hasSid = false → (cartesiaLoop enc st ms).1 = []) :=
  ⟨cartesiaStep_mem_sid, cartesiaStep_drop_audio,
    fun enc st ms hno => cartesiaLoop_out_empty enc ms st hno⟩

end Archer
